import Mathlib

/-
  Verification development for the Stage metadata extraction engine
  (src/stage_complete.py).  The Python engine is shallowly embedded:

  * regular-expression searches are executed by a small token matcher
    (leftmost search, greedy and lazy quantifiers over character classes,
    capture groups, word boundaries), with each Python pattern transcribed
    to a list of tokens;
  * BeautifulSoup element queries and the two script blocks are supplied
    as oracles (structures Soup and Scripts) accompanying the raw HTML
    string, exactly at the library boundary the code uses them;
  * json values are an inductive JVal with a model of json.dumps
    (default separators, i.e. a space after each colon);
  * Python exceptions are modelled by total functions returning the value
    the enclosing except-handler produces; the network fetch is an
    Except value handed to the engine.
-/

/-! ### Small Python-flavoured string helpers -/

def lowerL (l : List Char) : List Char := l.map Char.toLower

def strLower (s : String) : String := ⟨lowerL s.data⟩

/-- Truthiness of an optional string, as Python sees dict values:
None and the empty string are falsy. -/
def pyTruthy : Option String → Bool
  | none => false
  | some s => !s.isEmpty

/-- Python str.title over ASCII: an alphabetic character is uppercased
when the previous character is not alphabetic, lowercased otherwise. -/
def pyTitleGo : Bool → List Char → List Char
  | _, [] => []
  | prevAlpha, c :: rest =>
    if c.isAlpha then (if prevAlpha then c.toLower else c.toUpper) :: pyTitleGo true rest
    else c :: pyTitleGo false rest

def pyTitle (s : String) : String := ⟨pyTitleGo false s.data⟩

def startsWithL : List Char → List Char → Bool
  | [], _ => true
  | _ :: _, [] => false
  | n :: ns, h :: hs => n == h && startsWithL ns hs

/-- Substring containment over char lists (Python `needle in hay`). -/
def containsL : List Char → List Char → Bool
  | needle, [] => needle.isEmpty
  | needle, c :: rest => startsWithL needle (c :: rest) || containsL needle rest

def digitsToNat (l : List Char) : Nat := l.foldl (fun a c => a * 10 + (c.toNat - 48)) 0

/-! ### Regex token matcher

A Python pattern is transcribed into a list of tokens.  Quantifiers are
restricted to character classes (which is all the source patterns use),
alternation to literal strings, so matching terminates on a small
constant fuel: the fuel only bounds the recursion depth, which never
exceeds the token count of a pattern. -/

inductive Tok where
  | lit (s : List Char) (ci : Bool)
  | cls (p : Char → Bool) (lo : Nat) (hi : Option Nat) (lazi : Bool) (cap : Option Nat)
  | grp (idx : Nat) (sub : List Tok)
  | altLit (cap : Option Nat) (ci : Bool) (alts : List (List Char))
  | wb

abbrev Caps := List (Nat × List Char)

def charEqCI (ci : Bool) (a b : Char) : Bool :=
  if ci then a.toLower == b.toLower else a == b

def stripLit (ci : Bool) : List Char → List Char → Option (List Char)
  | [], input => some input
  | _ :: _, [] => none
  | p :: ps, c :: cs => if charEqCI ci p c then stripLit ci ps cs else none

def countWhile (p : Char → Bool) : List Char → Nat
  | [] => 0
  | c :: cs => if p c then countWhile p cs + 1 else 0

def isWordChar (c : Char) : Bool := c.isAlphanum || c == '_'

def optIsWord : Option Char → Bool
  | some c => isWordChar c
  | none => false

def lastOf (l : List Char) (dflt : Option Char) : Option Char :=
  match l.getLast? with
  | some c => some c
  | none => dflt

def matchToks : Nat → List Tok → Option Char → List Char → Caps →
    (Option Char → List Char → Caps → Option (List Char × Caps)) →
    Option (List Char × Caps)
  | 0, _, _, _, _, _ => none
  | _ + 1, [], prev, input, caps, k => k prev input caps
  | f + 1, .lit s ci :: ts, prev, input, caps, k =>
    (match stripLit ci s input with
     | some rest => matchToks f ts (lastOf (input.take s.length) prev) rest caps k
     | none => none)
  | f + 1, .cls p lo hi lazi cap :: ts, prev, input, caps, k =>
    let maxRun := countWhile p input
    let maxN := match hi with
      | some h => min h maxRun
      | none => maxRun
    if maxN < lo then none
    else
      let cands := if lazi then (List.range (maxN - lo + 1)).map (fun i => lo + i)
        else (List.range (maxN - lo + 1)).map (fun i => maxN - i)
      cands.findSome? (fun n =>
        let consumed := input.take n
        let caps2 := match cap with
          | some i => caps ++ [(i, consumed)]
          | none => caps
        matchToks f ts (lastOf consumed prev) (input.drop n) caps2 k)
  | f + 1, .grp idx sub :: ts, prev, input, caps, k =>
    matchToks f sub prev input caps (fun prev2 rest caps2 =>
      matchToks f ts prev2 rest (caps2 ++ [(idx, input.take (input.length - rest.length))]) k)
  | f + 1, .altLit cap ci alts :: ts, prev, input, caps, k =>
    alts.findSome? (fun a =>
      match stripLit ci a input with
      | some rest =>
        let caps2 := match cap with
          | some i => caps ++ [(i, input.take a.length)]
          | none => caps
        matchToks f ts (lastOf (input.take a.length) prev) rest caps2 k
      | none => none)
  | f + 1, .wb :: ts, prev, input, caps, k =>
    if optIsWord prev != optIsWord input.head? then matchToks f ts prev input caps k
    else none

def reFuel : Nat := 64

/-- Leftmost search: try a match at every start position, left to right.
Returns (start position, match length, captures). -/
def searchAt (pat : List Tok) : Option Char → List Char → Nat → Option (Nat × Nat × Caps)
  | prev, input, pos =>
    match matchToks reFuel pat prev input [] (fun _ rest caps => some (rest, caps)) with
    | some (rest, caps) => some (pos, input.length - rest.length, caps)
    | none =>
      match input with
      | [] => none
      | c :: cs => searchAt pat (some c) cs (pos + 1)

def reSearch (pat : List Tok) (input : List Char) : Option (Nat × Nat × Caps) :=
  searchAt pat none input 0

def capGet (caps : Caps) (i : Nat) : Option (List Char) :=
  (caps.find? (fun c => c.1 == i)).map (fun c => c.2)

/-- re.search followed by match.group(i). -/
def reGroup (pat : List Tok) (i : Nat) (input : List Char) : Option String :=
  match reSearch pat input with
  | some (_, _, caps) =>
    match capGet caps i with
    | some l => some ⟨l⟩
    | none => none
  | none => none

/-- re.finditer: all non-overlapping matches, scanning resumes at the end
of the previous match (one past it for an empty match). -/
def findIterAux (pat : List Tok) : Nat → Option Char → List Char → Nat → List (Nat × Nat)
  | 0, _, _, _ => []
  | f + 1, prev, input, pos =>
    match searchAt pat prev input pos with
    | none => []
    | some (st, len, _) =>
      let adv := if len == 0 then st + 1 - pos else st + len - pos
      (st, len) :: findIterAux pat f (lastOf (input.take adv) prev) (input.drop adv) (pos + adv)

def findIter (pat : List Tok) (input : List Char) : List (Nat × Nat) :=
  findIterAux pat (input.length + 1) none input 0

/-! Token shorthands used while transcribing the Python patterns. -/

def tD : Tok := .cls Char.isDigit 1 none false none

def tDc (i : Nat) : Tok := .cls Char.isDigit 1 none false (some i)

def tDn (lo hi : Nat) : Tok := .cls Char.isDigit lo (some hi) false none

def tDnc (lo hi i : Nat) : Tok := .cls Char.isDigit lo (some hi) false (some i)

def tWS : Tok := .cls Char.isWhitespace 0 none false none

def tDotLazy : Tok := .cls (fun c => c != '\n') 0 none true none

def tAlphaC (i : Nat) : Tok := .cls Char.isAlpha 1 none false (some i)

def litCI (s : String) : Tok := .lit s.data true

def litCS (s : String) : Tok := .lit s.data false

/-- Optional single character from a set, case-insensitive (for a trailing
`s?` in a pattern). -/
def tOptCI (c : Char) : Tok := .cls (fun x => x.toLower == c) 0 (some 1) false none

/-- re.sub for the two normalisation substitutions
`([0-9]+)H([0-9]+)M -> \1h \2m` (and the lowercase variant): scan left to
right, replace non-overlapping matches, continue after each replacement. -/
def subHMAux (hc mc : Char) : Nat → List Char → List Char
  | 0, l => l
  | _ + 1, [] => []
  | f + 1, l =>
    let d1 := l.takeWhile Char.isDigit
    let r1 := l.drop d1.length
    (match d1, r1 with
     | _ :: _, c :: r2 =>
       if c == hc then
         let d2 := r2.takeWhile Char.isDigit
         let r3 := r2.drop d2.length
         (match d2, r3 with
          | _ :: _, c2 :: r4 =>
            if c2 == mc then d1 ++ ('h' :: ' ' :: d2) ++ ('m' :: subHMAux hc mc f r4)
            else
              match l with
              | [] => []
              | x :: xs => x :: subHMAux hc mc f xs
          | _, _ =>
            match l with
            | [] => []
            | x :: xs => x :: subHMAux hc mc f xs)
       else
         match l with
         | [] => []
         | x :: xs => x :: subHMAux hc mc f xs
     | _, _ =>
       match l with
       | [] => []
       | x :: xs => x :: subHMAux hc mc f xs)

def pySubHM (s : String) : String :=
  let step1 := subHMAux 'H' 'M' (s.data.length + 1) s.data
  ⟨subHMAux 'h' 'm' (step1.length + 1) step1⟩

/-! ### JSON values and a model of json.dumps (default separators) -/

inductive JVal where
  | null
  | bool (b : Bool)
  | num (n : Int)
  | str (s : String)
  | arr (xs : List JVal)
  | obj (fields : List (String × JVal))

def qChar : Char := Char.ofNat 34

def apChar : Char := Char.ofNat 39

def rbChar : Char := Char.ofNat 125

def hexDigit (n : Nat) : Char :=
  if n < 10 then Char.ofNat (48 + n) else Char.ofNat (87 + n)

def hex4 (n : Nat) : String :=
  ⟨[hexDigit (n / 4096 % 16), hexDigit (n / 256 % 16), hexDigit (n / 16 % 16),
    hexDigit (n % 16)]⟩

/-- The default ensure_ascii escaping: quote, backslash and the named
control characters get two-character escapes; every other character
outside the printable ASCII range becomes a lowercase four-digit unicode
escape, with a surrogate pair beyond the basic plane. -/
def jsonEscapeChar (c : Char) : String :=
  if c == qChar then "\\\x22"
  else if c == '\\' then "\\\\"
  else if c == '\n' then "\\n"
  else if c == '\t' then "\\t"
  else if c == '\r' then "\\r"
  else if c.toNat == 8 then "\\b"
  else if c.toNat == 12 then "\\f"
  else if c.toNat < 32 || c.toNat > 126 then
    if c.toNat < 65536 then "\\u" ++ hex4 c.toNat
    else
      "\\u" ++ hex4 (55296 + (c.toNat - 65536) / 1024) ++
        "\\u" ++ hex4 (56320 + (c.toNat - 65536) % 1024)
  else String.singleton c

def jsonQuote (s : String) : String :=
  "\x22" ++ String.join (s.data.map jsonEscapeChar) ++ "\x22"

def dumpsF : Nat → JVal → String
  | 0, _ => ""
  | _, .null => "null"
  | _, .bool b => if b then "true" else "false"
  | _, .num n => toString n
  | _, .str s => jsonQuote s
  | f + 1, .arr xs => "[" ++ String.intercalate ", " (xs.map (fun x => dumpsF f x)) ++ "]"
  | f + 1, .obj kvs =>
    "\x7b" ++ String.intercalate ", " (kvs.map (fun kv => jsonQuote kv.1 ++ ": " ++ dumpsF f kv.2)) ++ "\x7d"

def JVal.dumps (j : JVal) : String := dumpsF 64 j

def JVal.getKey : JVal → String → Option JVal
  | .obj kvs, k => (kvs.find? (fun kv => kv.1 == k)).map (fun kv => kv.2)
  | _, _ => none

def jgetD (j : JVal) (k : String) (d : JVal) : JVal := (j.getKey k).getD d

def JVal.isObj : JVal → Bool
  | .obj _ => true
  | _ => false

def getStrJ (j : JVal) (k : String) : Option String :=
  match j.getKey k with
  | some (.str s) => some s
  | _ => none

/-- Python str() applied to a scalar json value.  A container argument
would produce its Python repr, a nonempty string with brackets and
single quotes; that case lies outside the modelled input class (no page
considered here carries a container in a stringified field), so the
catch-all returns the empty string as an explicit out-of-model marker
rather than imitating repr. -/
def pyStrJ : JVal → String
  | .null => "None"
  | .bool b => if b then "True" else "False"
  | .num n => toString n
  | .str s => s
  | _ => ""

/-! ### Oracles for the library boundary (BeautifulSoup, json.loads) -/

/-- A BeautifulSoup element as the engine reads it: its stripped text and
its content attribute (empty when absent). -/
structure Elem where
  text : String
  content : String
deriving DecidableEq

/-- Results of the soup.select_one queries the engine performs, in source
order of the selector lists. -/
structure Soup where
  h1 : Option Elem := none
  titleTag : Option Elem := none
  movieTitleTestId : Option Elem := none
  movieTitleCls : Option Elem := none
  ogTitle : Option Elem := none
  ogDescription : Option Elem := none
  metaDescription : Option Elem := none
  movieDescriptionCls : Option Elem := none
  descriptionCls : Option Elem := none
  firstP : Option Elem := none
deriving DecidableEq

/-- The two script blocks: none means the script tag is absent,
some none that json.loads failed on it, some (some j) the parsed value. -/
structure Scripts where
  nextData : Option (Option JVal) := none
  ldJson : Option (Option JVal) := none

/-! ### Duration normalizer (convert_duration, lines 53-67)

isodate.parse_duration matches an optional + or - sign, then P, then
optional years, months, weeks and days components, then an optional T
block with optional hours, minutes and seconds; every component is
digits with an optional comma or period fraction, followed by its unit
letter.  A bare P fails (the negative lookahead after P), while a block
with no components at all still matches and means zero.  The returned
object reports total_seconds from its internal timedelta, so years and
months parse but contribute zero seconds, and a leading - negates the
timedelta.  The regex dollar anchor also matches just before one final
newline.  parseISODuration returns the floor of the total seconds; that
loses nothing for the caller because int(x // 60) applied to the exact
total equals the same floor division applied to the floor of x.  The
alternative P<datetime> fallback format of the library (for example
P0003-06-04T12:30:05) is outside this model.  When parsing fails
convert_duration returns its input unchanged. -/

/-- An exact nonnegative decimal num / 10 ^ exp. -/
structure Dec where
  num : Nat
  exp : Nat

def Dec.add (a b : Dec) : Dec :=
  ⟨a.num * 10 ^ b.exp + b.num * 10 ^ a.exp, a.exp + b.exp⟩

def Dec.scale (a : Dec) (k : Nat) : Dec :=
  ⟨a.num * k, a.exp⟩

/-- One duration component: digits, an optional comma or period with
more digits, then the unit letter; anything else leaves the input
unconsumed, as the optional regex group does. -/
def compOf (l : List Char) (u : Char) : Option Dec × List Char :=
  let ds := l.takeWhile Char.isDigit
  match ds with
  | [] => (none, l)
  | _ :: _ =>
    match l.drop ds.length with
    | c :: rest =>
      if c == u then (some ⟨digitsToNat ds, 0⟩, rest)
      else if c == '.' || c == ',' then
        let fs := rest.takeWhile Char.isDigit
        match fs with
        | [] => (none, l)
        | _ :: _ =>
          match rest.drop fs.length with
          | c2 :: rest2 =>
            if c2 == u then
              (some ⟨digitsToNat ds * 10 ^ fs.length + digitsToNat fs, fs.length⟩, rest2)
            else (none, l)
          | [] => (none, l)
      else (none, l)
    | [] => (none, l)

/-- The component block after the leading P; years and months must parse
for the match but add nothing to the seconds, because the library
Duration delegates total_seconds to its timedelta, which has no year or
month part. -/
def afterP (r0 : List Char) (sign : Int) : Option Int :=
  match r0 with
  | [] => none
  | _ :: _ =>
    let yR := compOf r0 'Y'
    let moR := compOf yR.2 'M'
    let wR := compOf moR.2 'W'
    let dR := compOf wR.2 'D'
    let core : Option Dec :=
      match dR.2 with
      | [] => some (((wR.1.getD ⟨0, 0⟩).scale 604800).add ((dR.1.getD ⟨0, 0⟩).scale 86400))
      | c :: r5 =>
        if c == 'T' then
          let hR := compOf r5 'H'
          let miR := compOf hR.2 'M'
          let seR := compOf miR.2 'S'
          if seR.2.isEmpty then
            some ((((wR.1.getD ⟨0, 0⟩).scale 604800).add
              ((dR.1.getD ⟨0, 0⟩).scale 86400)).add
              (((hR.1.getD ⟨0, 0⟩).scale 3600).add
              (((miR.1.getD ⟨0, 0⟩).scale 60).add (seR.1.getD ⟨0, 0⟩))))
          else none
        else none
    match core with
    | some d => some ((sign * Int.ofNat d.num).fdiv (Int.ofNat (10 ^ d.exp)))
    | none => none

/-- After a sign the P is still required. -/
def pDispatch (r : List Char) (sign : Int) : Option Int :=
  match r with
  | c :: r2 => if c == 'P' then afterP r2 sign else none
  | [] => none

/-- The optional sign, then P. -/
def headDispatch (l : List Char) : Option Int :=
  match l with
  | c :: r =>
    if c == 'P' then afterP r 1
    else if c == '+' then pDispatch r 1
    else if c == '-' then pDispatch r (-1)
    else none
  | [] => none

def parseISODuration (s : String) : Option Int :=
  headDispatch (if s.data.getLast? == some '\n' then s.data.dropLast else s.data)

/-- convert_duration: empty input gives None; on parse success format
hours and minutes; on failure return the input unchanged.  Python floor
division and modulus on these nonnegative values coincide with ediv and
emod. -/
def convert_duration (iso_duration : String) : Option String :=
  if iso_duration = "" then none
  else
    match parseISODuration iso_duration with
    | some secs =>
      let total_minutes : Int := secs.ediv 60
      let hours := total_minutes.ediv 60
      let minutes := total_minutes.emod 60
      if hours > 0 then some (toString hours ++ "h " ++ toString minutes ++ "m")
      else some (toString minutes ++ "m")
    | none => some iso_duration

/-! ### Identifier extractor (extract_stage_id, lines 69-72)

re.search of dash digits anchored at the end: the dollar anchor matches
at the end of the string and also just before one final newline, so a
single trailing newline is ignored; the match exists exactly when what
remains ends with a hyphen followed by at least one digit, and the
captured group is that maximal trailing digit run. -/

/-- Drop the one trailing newline the dollar anchor looks past (the
argument is the reversed character list). -/
def dollarStrip (l : List Char) : List Char :=
  if l.head? == some '\n' then l.tail else l

/-- The digits-preceded-by-a-hyphen check on a reversed character list. -/
def trailingId (body : List Char) : Option String :=
  let ds := body.takeWhile Char.isDigit
  if ds.isEmpty then none
  else
    match body.drop ds.length with
    | c :: _ => if c == '-' then some ⟨ds.reverse⟩ else none
    | [] => none

def extract_stage_id (url : String) : Option String :=
  trailingId (dollarStrip url.data.reverse)

/-! ### Poster detector (detect_posters, lines 74-128)

findall with a single capture group returns the group text, so the three
url-shaped patterns per orientation yield the file extension captured by
the alternation, and the named-field patterns yield the url. -/

def tNotQ : Tok := .cls (fun c => c != qChar) 0 none false none

def tNotQ1c (i : Nat) : Tok := .cls (fun c => c != qChar) 1 none false (some i)

def tNotQA : Tok := .cls (fun c => c != qChar && c != apChar) 0 none false none

def extAlt (i : Nat) : Tok := .altLit (some i) false ["webp".data, "jpg".data, "jpeg".data]

def pl_horizontal : List Tok :=
  [litCS "https://media.stage.in/", tNotQA, litCS "horizontal", tNotQ, litCS ".", extAlt 1]

def pl_landscape : List Tok :=
  [litCS "https://media.stage.in/", tNotQA, litCS "landscape", tNotQ, litCS ".", extAlt 1]

def pl_wide : List Tok :=
  [litCS "https://media.stage.in/", tNotQA, litCS "wide", tNotQ, litCS ".", extAlt 1]

def pl_horizThumb : List Tok := [litCS "\x22horizontalThumbnail\x22:\x22", tNotQ1c 1, litCS "\x22"]

def pl_largeThumb : List Tok := [litCS "\x22largeThumbnail\x22:\x22", tNotQ1c 1, litCS "\x22"]

def pp_vertical : List Tok :=
  [litCS "https://media.stage.in/", tNotQA, litCS "vertical", tNotQ, litCS ".", extAlt 1]

def pp_portrait : List Tok :=
  [litCS "https://media.stage.in/", tNotQA, litCS "portrait", tNotQ, litCS ".", extAlt 1]

def pp_tall : List Tok :=
  [litCS "https://media.stage.in/", tNotQA, litCS "tall", tNotQ, litCS ".", extAlt 1]

def pp_vertThumb : List Tok := [litCS "\x22verticalThumbnail\x22:\x22", tNotQ1c 1, litCS "\x22"]

def pyStripQuotes (s : String) : String :=
  let l := s.data.dropWhile (fun c => c == qChar)
  ⟨(l.reverse.dropWhile (fun c => c == qChar)).reverse⟩

def posterClean (s : String) : String :=
  if s.startsWith "\x22" then pyStripQuotes s else s

def detect_posters (next_json : JVal) : Option String × Option String :=
  let media := (JVal.dumps next_json).data
  let land := [pl_horizontal, pl_landscape, pl_wide, pl_horizThumb, pl_largeThumb].findSome?
    (fun p => reGroup p 1 media)
  let port := [pp_vertical, pp_portrait, pp_tall, pp_vertThumb].findSome?
    (fun p => reGroup p 1 media)
  (land.map posterClean, port.map posterClean)

/-! ### Content-type classifier (detect_content_type, lines 130-161) -/

def detect_content_type (next_json ld_data : JVal) : String :=
  let json_text := JVal.dumps next_json ++ JVal.dumps ld_data
  let tl := lowerL json_text.data
  if containsL "/show/".data tl || containsL "/series/".data tl ||
     containsL "/web-series/".data tl || containsL "/tv-show/".data tl then "Series"
  else if containsL "/movie/".data tl then "Movie"
  else
    let inds := ["episode", "episodes", "season", "seasons", "series", "web series"]
    let series_count := (inds.filter (fun i => containsL i.data tl)).length
    if series_count ≥ 3 then "Series" else "Movie"

/-! ### Episode-count extractor (extract_episode_count, lines 163-183) -/

def pe1 : List Tok := [tDc 1, tWS, litCI "episode", tOptCI 's']

def pe2 : List Tok := [litCI "episode", tWS, tDc 1]

def pe3 : List Tok := [litCI "\x22episodeCount\x22:", tWS, tDc 1]

def pe4 : List Tok := [litCI "\x22numberOfEpisodes\x22:", tWS, tDc 1]

def extract_episode_count (next_json ld_data : JVal) : Option Int :=
  let jt := (JVal.dumps next_json ++ JVal.dumps ld_data).data
  ([pe1, pe2, pe3, pe4].findSome? (fun p => reGroup p 1 jt)).map
    (fun s => Int.ofNat (digitsToNat s.data))

/-! ### Layer B extractor (extract_from_next_data, lines 185-291) -/

/-- One field of the internally produced partial record.  A value of none
stands for a key that is absent or holds Python None; the merge loops only
copy truthy values, so falsy presences behave identically. -/
structure Extracted where
  title : Option String := none
  description : Option String := none
  release_date : Option String := none
  duration : Option String := none
  languages : Option String := none
  genre : Option String := none
deriving DecidableEq

def movieItem (it : JVal) : Option JVal :=
  match it with
  | .obj _ => if getStrJ it "type" == some "movie" then some it else none
  | _ => none

/-- The data_sources loop (lines 209-221): an inner hit on a nested
content list records the item without breaking, a type match on the
source itself records the source and breaks. -/
def findContentData : Option JVal → List JVal → Option JVal
  | acc, [] => acc
  | acc, s :: rest =>
    match s with
    | .obj _ =>
      let acc2 := match s.getKey "content" with
        | some (.arr items) =>
          match items.findSome? movieItem with
          | some it => some it
          | none => acc
        | _ => acc
      if getStrJ s "type" == some "movie" || getStrJ s "type" == some "show" then some s
      else findContentData acc2 rest
    | _ => findContentData acc rest

/-- Seconds to readable duration (lines 246-255 and 270-279 and 360-367).
Python floor division and modulus are ediv and emod, identical for the
positive divisor 60. -/
def secondsToHM (duration_seconds : Int) : String :=
  let minutes := duration_seconds.ediv 60
  let hours := minutes.ediv 60
  let remaining_minutes := minutes.emod 60
  if hours > 0 then toString hours ++ "h " ++ toString remaining_minutes ++ "m"
  else toString remaining_minutes ++ "m"

/-- Languages and genre assignments at the tail of the content_data block
(lines 281-286); a non-string dialect would fail the title() call, landing
in the handler which returns the partial record built so far. -/
def finishNext (extracted : Extracted) (cd : JVal) : Extracted :=
  match cd.getKey "dialect" with
  | some (.str s) => { extracted with languages := some (pyTitle s), genre := getStrJ cd "genre" }
  | none => { extracted with languages := some (pyTitle ""), genre := getStrJ cd "genre" }
  | some _ => extracted

def extract_from_next_data (next_json : JVal) : Extracted :=
  if !next_json.isObj then {} else
  let props := jgetD next_json "props" (.obj [])
  if !props.isObj then {} else
  let page_props := jgetD props "pageProps" (.obj [])
  if !page_props.isObj then {} else
  let data_sources := [jgetD page_props "data" (.obj []), jgetD page_props "content" (.obj []),
    jgetD page_props "movie" (.obj []), jgetD page_props "series" (.obj []),
    jgetD page_props "episode" (.obj []), jgetD next_json "query" (.obj [])]
  -- Raw-text fallback (lines 223-257): every pattern in movie_patterns
  -- computes field_name = pattern.split(quote)[1], which is the string
  -- type for all five entries, so no assignment branch ever fires and the
  -- loop leaves extracted unchanged whatever the text contains.
  let base : Extracted := {}
  match findContentData none data_sources with
  | none => base
  | some cd =>
    let e1 := { base with
      title := getStrJ cd "title",
      description := getStrJ cd "description",
      release_date := some (match cd.getKey "yearOfRelease" with
        | some v => pyStrJ v
        | none => "") }
    match cd.getKey "duration" with
    | some (.num n) => finishNext (if n != 0 then { e1 with duration := some (secondsToHM n) } else e1) cd
    | some (.str s) => if s.isEmpty then finishNext e1 cd else e1
    | some (.bool b) => finishNext (if b then { e1 with duration := some (secondsToHM 1) } else e1) cd
    | some (.arr xs) => if xs.isEmpty then finishNext e1 cd else e1
    | some (.obj kvs) => if kvs.isEmpty then finishNext e1 cd else e1
    | some .null => finishNext e1 cd
    | none => finishNext e1 cd

/-! ### Layer C extractor (extract_from_ld_json, lines 293-312) -/

def extract_from_ld_json (ld_data : JVal) : Extracted :=
  let ld2 := match ld_data with
    | .arr (x :: _) => x
    | .arr [] => .obj []
    | other => other
  if !ld2.isObj then {} else
  let e1 : Extracted := { title := getStrJ ld2 "name", description := getStrJ ld2 "description" }
  let du2 := match getStrJ ld2 "duration" with
    | some du => convert_duration du
    | none => none
  let rest := fun (rd : Option String) =>
    { e1 with
      release_date := rd, duration := du2,
      genre := getStrJ ld2 "genre", languages := getStrJ ld2 "inLanguage" }
  match ld2.getKey "uploadDate" with
  | some (.str d) => if d.isEmpty then rest none else rest (some ((d.splitOn "T").headD d))
  | some .null => rest none
  | some (.bool false) => rest none
  | some (.num n) => if n == 0 then rest none else e1
  | some (.arr xs) => if xs.isEmpty then rest none else e1
  | some (.obj kvs) => if kvs.isEmpty then rest none else e1
  | none => rest none
  | some _ => e1

/-! ### Layer A extractor (extract_embedded_data, lines 464-735) -/

structure Embedded where
  type : Option String := none
  episode_count : Option Int := none
  title : Option String := none
  description : Option String := none
  duration : Option String := none
  yearOfRelease : Option Int := none
  dialect : Option String := none
  genre : Option String := none
  horizontalThumbnail : Option String := none
  verticalThumbnail : Option String := none
deriving DecidableEq

def Embedded.nonempty (e : Embedded) : Bool :=
  e.type.isSome || e.episode_count.isSome || e.title.isSome || e.description.isSome ||
  e.duration.isSome || e.yearOfRelease.isSome || e.dialect.isSome || e.genre.isSome ||
  e.horizontalThumbnail.isSome || e.verticalThumbnail.isSome

def knownSeriesPat (name : String) : List Tok := [.wb, litCI name, .wb]

/-- Lines 505-531: a known series name counts only when some whole-word
occurrence has no search-suggestion marker in the 100-character window
around its start. -/
def seriesNameHit (lower : List Char) (name : String) : Bool :=
  (findIter (knownSeriesPat name) lower).any (fun m =>
    let st := m.1
    let a := if st < 100 then 0 else st - 100
    let b := min lower.length (st + 100)
    let ctx := (lower.drop a).take (b - a)
    !(containsL "\x22search_screen\x22".data ctx) && !(containsL "textfieldlabel".data ctx))

def pIndEpisode : List Tok := [.wb, litCI "episode", .wb]

def pIndSeason : List Tok := [.wb, litCI "season", .wb]

def pIndSeries : List Tok := [.wb, litCI "series", .wb]

def pIndShow : List Tok := [.wb, litCI "show", .wb]

def embeddedSeriesCount (lower : List Char) : Nat :=
  (findIter pIndEpisode lower).length + (findIter pIndSeason lower).length +
  (findIter pIndSeries lower).length + (findIter pIndShow lower).length

def embeddedMovieCount (lower : List Char) : Nat :=
  (["movie", "film", "cinema"].filter (fun i => containsL i.data lower)).length

/-- Lines 473-565: the content-type decision and the episode-count
override of the manual table. -/
def embeddedTypeAndOverride (lower : List Char) : String × Option Int :=
  if containsL "/show/".data lower || containsL "/series/".data lower ||
     containsL "/web-series/".data lower || containsL "/tv-show/".data lower then ("series", none)
  else if ["videshi bahu", "ramayan", "mahabharat", "sacred games"].any (seriesNameHit lower) then
    ("series", if containsL "videshi bahu".data lower then some 12 else none)
  else if containsL "/movie/".data lower then ("movie", none)
  else if embeddedSeriesCount lower ≥ 2 && embeddedMovieCount lower ≤ 1 then ("series", none)
  else ("movie", none)

def elemTitleVal (e : Elem) : String := if !e.text.isEmpty then e.text else e.content

def embeddedTitle (soup : Soup) : Option String :=
  [soup.h1, soup.titleTag, soup.movieTitleTestId, soup.movieTitleCls, soup.ogTitle].findSome?
    (fun oe => match oe with
      | some e =>
        let t := elemTitleVal e
        if !t.isEmpty && t != "STAGE" then some t else none
      | none => none)

def elemDescVal (e : Elem) : String := if !e.content.isEmpty then e.content else e.text

def embeddedDescription (soup : Soup) : Option String :=
  [soup.ogDescription, soup.metaDescription, soup.movieDescriptionCls,
   soup.descriptionCls, soup.firstP].findSome?
    (fun oe => match oe with
      | some e =>
        let d := elemDescVal e
        if !d.isEmpty && d.length > 50 then some d else none
      | none => none)

/-! Duration patterns (lines 606-622), applied with IGNORECASE to the raw
HTML text; group 1 is returned. -/

def pdur1 : List Tok := [.grp 1 [tDn 1 2, litCS ":", tDn 2 2, litCS ":", tDn 2 2]]

def pdur2 : List Tok := [.grp 1 [tDn 1 2, litCI "h", tWS, tDn 1 2, litCI "m", tWS, tDn 1 2, litCI "s"]]

def pdur3 : List Tok := [.grp 1 [tDn 1 2, litCI "h", tWS, tDn 1 2, litCI "m"]]

def pdur4 : List Tok := [.grp 1 [tDn 1 2, litCS ":", tDn 2 2]]

def pdur5 : List Tok := [tDnc 1 3 1, tWS, litCI "minute", tOptCI 's']

def pdur6 : List Tok := [litCI "runs for approximately ", .grp 1 [tD, litCI "h", tWS, tD, litCI "m"]]

def pdur7 : List Tok := [litCI "runs for approximately ", .grp 1 [tD, litCI "h"]]

def pdur8 : List Tok := [litCI "movie runs for approximately ", .grp 1 [tD, litCI "h", tWS, tD, litCI "m"]]

def pdur9 : List Tok := [litCI "movie runs for approximately ", .grp 1 [tD, litCI "m"]]

def pdur10 : List Tok := [litCI "duration", tDotLazy, .grp 1 [tD, litCI "h", tWS, tD, litCI "m"]]

def pdur11 : List Tok := [litCI "duration", tDotLazy, .grp 1 [tD, litCI "h"]]

def pdur12 : List Tok := [litCI "duration", tDotLazy, .grp 1 [tD, litCI "m"]]

def pdur13 : List Tok := [.grp 1 [tD, litCI "h", tWS, tD, litCI "m"], tWS, litCI "long"]

def pdur14 : List Tok := [.grp 1 [tD, litCI "h"], tWS, litCI "long"]

def pdur15 : List Tok := [.grp 1 [tD, litCI "m"], tWS, litCI "long"]

def duration_patterns : List (List Tok) :=
  [pdur1, pdur2, pdur3, pdur4, pdur5, pdur6, pdur7, pdur8,
   pdur9, pdur10, pdur11, pdur12, pdur13, pdur14, pdur15]

/-- Lines 631-644: a colon-delimited match is split and re-rendered with
int(), which drops leading zeros. -/
def normalizeColonDuration (duration : String) : Option String :=
  match duration.splitOn ":" with
  | [p0, p1, p2] =>
    let hours := digitsToNat p0.data
    let minutes := digitsToNat p1.data
    let seconds := digitsToNat p2.data
    if hours > 0 then some (toString hours ++ "h " ++ toString minutes ++ "m " ++ toString seconds ++ "s")
    else some (toString minutes ++ "m " ++ toString seconds ++ "s")
  | [p0, p1] => some (toString (digitsToNat p0.data) ++ "m " ++ toString (digitsToNat p1.data) ++ "s")
  | _ => none

/-- Lines 601-650: the nasoor/gujarati manual override, then the ordered
pattern list; a degenerate match (0m, 0h or containing 348h) moves on to
the next pattern. -/
def embeddedDuration (html : String) (lower : List Char) : Option String :=
  if containsL "nasoor".data lower && containsL "gujarati".data lower then some "1h 53m"
  else
    duration_patterns.findSome? (fun p =>
      match reGroup p 1 html.data with
      | some duration =>
        if duration == "0m" || duration == "0h" || containsL "348h".data duration.data then none
        else if containsL ":".data duration.data then normalizeColonDuration duration
        else some (pySubHM duration)
      | none => none)

/-! Year patterns (lines 653-665), case-sensitive; a match outside
1900-2030 moves on to the next pattern. -/

def pyear1 : List Tok := [litCS "released in ", tDnc 4 4 1]

def pyear2 : List Tok := [tDnc 4 4 1, litCS " movie"]

def pyear3 : List Tok := [tDnc 4 4 1]

def embeddedYear (html : String) : Option Int :=
  [pyear1, pyear2, pyear3].findSome? (fun p =>
    match reGroup p 1 html.data with
    | some y =>
      let n := digitsToNat y.data
      if 1900 ≤ n && n ≤ 2030 then some (Int.ofNat n) else none
    | none => none)

/-! Language patterns (lines 668-680), case-sensitive; a captured word of
length at most 2 moves on to the next pattern; the stored value is
lowercased. -/

def plang1 : List Tok := [litCS "Available in", tWS, tAlphaC 1]

def plang2 : List Tok := [litCS "language", tDotLazy, tAlphaC 1]

def plang3 : List Tok := [tAlphaC 1, tWS, litCS "language"]

def embeddedDialect (html : String) : Option String :=
  [plang1, plang2, plang3].findSome? (fun p =>
    match reGroup p 1 html.data with
    | some lang => if lang.length > 2 then some (strLower lang) else none
    | none => none)

/-! Genre patterns (lines 683-696): first matching pattern wins; the
two-group pattern renders a comma-joined pair. -/

def pgen1 : List Tok := [litCS "genre", tDotLazy, tAlphaC 1]

def pgen2 : List Tok := [tAlphaC 1, tWS, litCS "movie"]

def pgen3 : List Tok :=
  [litCS "compelling", tWS, tAlphaC 1, tWS, litCS "and", tWS, tAlphaC 2, tWS, litCS "movie"]

def embeddedGenre (html : String) : Option String :=
  match reGroup pgen1 1 html.data with
  | some g => some g
  | none =>
    match reGroup pgen2 1 html.data with
    | some g => some g
    | none =>
      match reSearch pgen3 html.data with
      | some (_, _, caps) =>
        match capGet caps 1, capGet caps 2 with
        | some g1, some g2 => some ((⟨g1⟩ : String) ++ ", " ++ (⟨g2⟩ : String))
        | _, _ => none
      | none => none

/-! Episode patterns for the embedded pass (lines 700-715): the first four
coincide with extract_episode_count, the fifth adds a season prefix. -/

def pep5 : List Tok := [litCI "season", tWS, tD, tDotLazy, tDc 1, tWS, litCI "episode", tOptCI 's']

def embeddedEpisodeCount (html : String) : Option Int :=
  ([pe1, pe2, pe3, pe4, pep5].findSome? (fun p => reGroup p 1 html.data)).map
    (fun s => Int.ofNat (digitsToNat s.data))

/-! Poster patterns for the embedded pass (lines 718-729): here the whole
url is group 1 and the extension group 2 of a nested alternation. -/

def pPosterH : List Tok :=
  [.grp 1 [litCS "https://media.stage.in/episode/horizontal/", tNotQ, litCS ".", extAlt 2]]

def pPosterV : List Tok :=
  [.grp 1 [litCS "https://media.stage.in/episode/vertical/", tNotQ, litCS ".", extAlt 2]]

def extract_embedded_data (html_content : String) (soup : Soup) : Embedded :=
  let lower := lowerL html_content.data
  let tyEp := embeddedTypeAndOverride lower
  let ty := tyEp.1
  { type := some ty
    episode_count :=
      if ty == "series" then
        match embeddedEpisodeCount html_content with
        | some n => some n
        | none => tyEp.2
      else tyEp.2
    title := embeddedTitle soup
    description := embeddedDescription soup
    duration := embeddedDuration html_content lower
    yearOfRelease := embeddedYear html_content
    dialect := embeddedDialect html_content
    genre := embeddedGenre html_content
    horizontalThumbnail := reGroup pPosterH 1 html_content.data
    verticalThumbnail := reGroup pPosterV 1 html_content.data }

/-! ### find_movie_data (lines 737-756)

The discriminant check on the dict itself; the nested dict and list
searches of the source cannot fire on the output of
extract_embedded_data, whose values are all scalars. -/

def find_movie_data (data : Embedded) : Embedded :=
  if data.type == some "movie" || data.type == some "individual" || data.type == some "series" then
    data
  else {}

/-! ### The final record and the extraction engine (get_stage_identity) -/

structure Record where
  stage_id : Option String
  type : Option String
  title : Option String
  description : Option String
  release_date : Option String
  duration : Option String
  genre : Option String
  languages : Option String
  episode_count : Option Int
  landscape_poster : Option String
  portrait_poster : Option String
  url : String
  success : Bool
  error : Option String
deriving DecidableEq

/-- The result dict as initialised at lines 327-341. -/
def initRecord (url : String) (stage_id : Option String) : Record where
  stage_id := stage_id
  type := none
  title := none
  description := none
  release_date := none
  duration := none
  genre := none
  languages := none
  episode_count := none
  landscape_poster := none
  portrait_poster := none
  url := url
  success := false
  error := none

/-- The record built by the top-level except handler (lines 446-462). -/
def failureRecord (url msg : String) : Record :=
  { initRecord url none with error := some msg }

/-- Lines 344-378: copy the discriminated object of Layer A into the
result.  The duration of the embedded dict is always a string here, so
the isinstance int branch of lines 360-367 cannot fire. -/
def applyEmbedded (r : Record) (e : Embedded) : Record :=
  if e.nonempty then
    let md := find_movie_data e
    if md.nonempty then
      let r1 := { r with
        title := md.title,
        description := some ((md.description.getD "").replace "\\n" "\n"),
        release_date := some (match md.yearOfRelease with
          | some y => toString y
          | none => ""),
        languages := some (pyTitle (md.dialect.getD "")) }
      let r2 := match md.duration with
        | some d => if !d.isEmpty then { r1 with duration := some d } else r1
        | none => r1
      let r3 := { r2 with
        landscape_poster := md.horizontalThumbnail,
        portrait_poster := md.verticalThumbnail }
      if e.type.isSome then { r3 with type := some (pyTitle (e.type.getD "")) } else r3
    else r
  else r

/-- Lines 414-417: every truthy value of the next extraction overwrites
the current field. -/
def mergeNext (r : Record) (x : Extracted) : Record where
  stage_id := r.stage_id
  type := r.type
  title := if pyTruthy x.title then x.title else r.title
  description := if pyTruthy x.description then x.description else r.description
  release_date := if pyTruthy x.release_date then x.release_date else r.release_date
  duration := if pyTruthy x.duration then x.duration else r.duration
  genre := if pyTruthy x.genre then x.genre else r.genre
  languages := if pyTruthy x.languages then x.languages else r.languages
  episode_count := r.episode_count
  landscape_poster := r.landscape_poster
  portrait_poster := r.portrait_poster
  url := r.url
  success := r.success
  error := r.error

/-- Lines 419-421: a truthy ld value is taken only into a falsy field. -/
def mergeLd (r : Record) (x : Extracted) : Record where
  stage_id := r.stage_id
  type := r.type
  title := if pyTruthy x.title && !pyTruthy r.title then x.title else r.title
  description := if pyTruthy x.description && !pyTruthy r.description then x.description else r.description
  release_date := if pyTruthy x.release_date && !pyTruthy r.release_date then x.release_date else r.release_date
  duration := if pyTruthy x.duration && !pyTruthy r.duration then x.duration else r.duration
  genre := if pyTruthy x.genre && !pyTruthy r.genre then x.genre else r.genre
  languages := if pyTruthy x.languages && !pyTruthy r.languages then x.languages else r.languages
  episode_count := r.episode_count
  landscape_poster := r.landscape_poster
  portrait_poster := r.portrait_poster
  url := r.url
  success := r.success
  error := r.error

/-- Lines 423-429: resolve the type through the classifier when no layer
set one, then compute the episode count exactly when the resolved type is
Series. -/
def typeAndEpisode (r : Record) (next_data ld_data : JVal) : Record :=
  let rT := if pyTruthy r.type then r
    else { r with type := some (detect_content_type next_data ld_data) }
  if rT.type == some "Series" then
    { rT with episode_count := extract_episode_count next_data ld_data }
  else rT

/-- Lines 381-429: the fallback taken when Layer A produced no acceptable
title.  The poster assignment and the next extraction run only when the
script tag exists and json.loads succeeded; otherwise next_data stays an
empty dict, and likewise for the ld block. -/
def layerB (r : Record) (sc : Scripts) : Record :=
  let nextParsed : Option JVal := match sc.nextData with
    | some (some j) => some j
    | _ => none
  let next_data := nextParsed.getD (.obj [])
  let next_extracted : Extracted := match nextParsed with
    | some j => extract_from_next_data j
    | none => {}
  let rP := match nextParsed with
    | some j =>
      let posters := detect_posters j
      { r with landscape_poster := posters.1, portrait_poster := posters.2 }
    | none => r
  let ldParsed : Option JVal := match sc.ldJson with
    | some (some j) => some j
    | _ => none
  let ld_data := ldParsed.getD (.obj [])
  let ld_extracted : Extracted := match ldParsed with
    | some j => extract_from_ld_json j
    | none => {}
  let rN := mergeNext rP next_extracted
  let rL := mergeLd rN ld_extracted
  typeAndEpisode rL next_data ld_data

/-- Python str.endswith, stated over the character list. -/
def pyEndsWith (s suffix : String) : Bool :=
  startsWithL suffix.data.reverse s.data.reverse

/-- Lines 436-438: re-normalise a duration that ends neither in m nor
in h. -/
def cleanupDuration (r : Record) : Record :=
  match r.duration with
  | some d =>
    if !d.isEmpty && !(pyEndsWith d "m") && !(pyEndsWith d "h") then
      { r with duration := convert_duration d }
    else r
  | none => r

/-- Lines 440-442. -/
def setSuccess (r : Record) : Record :=
  if pyTruthy r.title || pyTruthy r.stage_id then { r with success := true } else r

/-- Lines 314-462: the engine.  The fetched argument carries the html
together with its soup and script oracles, or the message of the raised
exception.  The else branch of lines 430-433 tests for a type key that
the result dict always has, so it is a no-op. -/
def get_stage_identity (url : String) (fetched : Except String (String × Soup × Scripts)) : Record :=
  match fetched with
  | .error e => failureRecord url e
  | .ok (html_content, soup, scripts) =>
    let r0 := initRecord url (extract_stage_id url)
    let e := extract_embedded_data html_content soup
    let r1 := applyEmbedded r0 e
    let r2 := if pyTruthy r1.title then r1 else layerB r1 scripts
    setSuccess (cleanupDuration r2)

/-! ### Spec-side predicate: the duration grammar of the specification -/

def isDigitRun (l : List Char) : Bool := !l.isEmpty && l.all Char.isDigit

/-- A tail of the form u1 space digits u2. -/
def tailForm (u1 u2 : Char) (r1 : List Char) : Bool :=
  match r1 with
  | c1 :: c2 :: r2 =>
    c1 == u1 && c2 == ' ' &&
    (let d2 := r2.takeWhile Char.isDigit
     isDigitRun d2 && r2.drop d2.length == [u2])
  | _ => false

/-- The three regular expressions of the specification:
digits h digits m, digits m, digits m digits s. -/
def durationGrammarOK (s : String) : Bool :=
  let l := s.data
  let d1 := l.takeWhile Char.isDigit
  let r1 := l.drop d1.length
  isDigitRun d1 && (r1 == ['m'] || tailForm 'h' 'm' r1 || tailForm 'm' 's' r1)

/-- The record state after Layer A only (lines 324-378), used to compare
the final output with what the embedded pass had established. -/
def recordAfterLayerA (url html : String) (soup : Soup) : Record :=
  applyEmbedded (initRecord url (extract_stage_id url)) (extract_embedded_data html soup)

/-! ### Concrete pages used to evaluate the engine

Each page is given consistently as raw text plus the soup elements and
script values its markup carries. -/

def pageMinutes : String := "This film runs 95 minutes total.<h1>Raat Baaki</h1>"

def soupMinutes : Soup := { h1 := some ⟨"Raat Baaki", ""⟩ }

def pageVideshi : String := "<h1>Videshi Bahu</h1>see videshi bahu now"

def soupVideshi : Soup := { h1 := some ⟨"Videshi Bahu", ""⟩ }

def pageRamayan : String := "<h1>Ramayan</h1>watch ramayan today"

def soupRamayan : Soup := { h1 := some ⟨"Ramayan", ""⟩ }

def pageRamayanNext : String :=
  "ramayan katha<script id=\x22__NEXT_DATA__\x22>\x7b\x22summary\x22: \x225 episodes\x22\x7d</script>"

def nextRamayan : JVal := .obj [("summary", .str "5 episodes")]

def scriptsRamayan : Scripts := { nextData := some (some nextRamayan) }

def pageKayantar : String :=
  "<title>STAGE</title><meta property=\x22og:title\x22 content=\x22Kayantar\x22/>"

def soupKayantar : Soup := { titleTag := some ⟨"STAGE", ""⟩, ogTitle := some ⟨"", "Kayantar"⟩ }

def urlKayantar : String := "https://www.stage.in/en/haryanvi/movie/kayantar-14145"

def pageYear : String :=
  "released in 2005<script id=\x22__NEXT_DATA__\x22>\x7b\x22props\x22: \x7b\x22pageProps\x22: \x7b\x22data\x22: \x7b\x22type\x22: \x22movie\x22, \x22title\x22: \x22Foo\x22, \x22yearOfRelease\x22: 2021\x7d\x7d\x7d\x7d</script>"

def nextYear : JVal :=
  .obj [("props", .obj [("pageProps", .obj [("data",
    .obj [("type", .str "movie"), ("title", .str "Foo"), ("yearOfRelease", .num 2021)])])])]

def scriptsYear : Scripts := { nextData := some (some nextYear) }

def pageFoo : String := "hello"

def soupFoo : Soup := { h1 := some ⟨"Foo", ""⟩ }

def scriptsAlt : Scripts := { nextData := some (some nextRamayan), ldJson := some none }

/-! ### Helper lemmas -/

theorem pyTruthy_iff (o : Option String) :
    pyTruthy o = true ↔ ∃ s, o = some s ∧ s ≠ "" := by
  cases o with
  | none => simp [pyTruthy]
  | some s =>
    constructor
    · intro h
      refine ⟨s, rfl, ?_⟩
      intro hs
      subst hs
      simp [pyTruthy, String.isEmpty] at h
    · rintro ⟨t, ht, hne⟩
      obtain rfl : s = t := by injection ht
      show (!s.isEmpty) = true
      cases hE : s.isEmpty with
      | false => rfl
      | true => exact absurd ((String.isEmpty_iff s).mp hE) hne

theorem digitChar_isDigit {k : Nat} (h : k < 10) : (Nat.digitChar k).isDigit = true := by
  interval_cases k <;> decide

theorem toDigitsCore_all_digits (f : Nat) :
    ∀ (n : Nat) (acc : List Char), (∀ c ∈ acc, c.isDigit = true) →
      ∀ c ∈ Nat.toDigitsCore 10 f n acc, c.isDigit = true := by
  induction f with
  | zero =>
    intro n acc hacc c hc
    rw [Nat.toDigitsCore] at hc
    exact hacc c hc
  | succ f ih =>
    intro n acc hacc c hc
    simp only [Nat.toDigitsCore] at hc
    by_cases h0 : n / 10 = 0
    · rw [if_pos h0] at hc
      rcases List.mem_cons.mp hc with h | h
      · subst h
        exact digitChar_isDigit (Nat.mod_lt n (by norm_num))
      · exact hacc c h
    · rw [if_neg h0] at hc
      refine ih (n / 10) _ ?_ c hc
      intro d hd
      rcases List.mem_cons.mp hd with h | h
      · subst h
        exact digitChar_isDigit (Nat.mod_lt n (by norm_num))
      · exact hacc d h

theorem toDigitsCore_ne_nil (f : Nat) :
    ∀ (n : Nat) (acc : List Char), 1 ≤ f ∨ acc ≠ [] → Nat.toDigitsCore 10 f n acc ≠ [] := by
  induction f with
  | zero =>
    intro n acc h
    rcases h with h | h
    · omega
    · rw [Nat.toDigitsCore]
      exact h
  | succ f ih =>
    intro n acc _
    simp only [Nat.toDigitsCore]
    by_cases h0 : n / 10 = 0
    · rw [if_pos h0]
      simp
    · rw [if_neg h0]
      exact ih (n / 10) _ (Or.inr (by simp))

theorem natRepr_digits (n : Nat) :
    (∀ c ∈ (Nat.repr n).data, c.isDigit = true) ∧ (Nat.repr n).data ≠ [] := by
  have hd : (Nat.repr n).data = Nat.toDigitsCore 10 (n + 1) n [] := rfl
  rw [hd]
  exact ⟨toDigitsCore_all_digits (n + 1) n [] (by simp),
    toDigitsCore_ne_nil (n + 1) n [] (Or.inl (by omega))⟩

theorem intToString_digits (i : Int) (h : 0 ≤ i) :
    (∀ c ∈ (toString i).data, c.isDigit = true) ∧ (toString i).data ≠ [] := by
  obtain ⟨n, rfl⟩ := Int.eq_ofNat_of_zero_le h
  exact natRepr_digits n

theorem takeWhile_all_append (p : Char → Bool) (xs : List Char) (y : Char) (ys : List Char)
    (h1 : ∀ x ∈ xs, p x = true) (h2 : p y = false) :
    (xs ++ y :: ys).takeWhile p = xs := by
  induction xs with
  | nil => simp [List.takeWhile, h2]
  | cons a as ih =>
    have ha : p a = true := h1 a (by simp)
    simp only [List.cons_append, List.takeWhile_cons, ha, if_true]
    rw [ih (fun x hx => h1 x (by simp [hx]))]

theorem isDigitRun_of (l : List Char) (h1 : l ≠ []) (h2 : ∀ c ∈ l, c.isDigit = true) :
    isDigitRun l = true := by
  cases l with
  | nil => exact absurd rfl h1
  | cons a as =>
    simp only [isDigitRun, List.isEmpty_cons, Bool.not_false, Bool.true_and, List.all_eq_true]
    exact h2

theorem durationGrammarOK_of_hm (s : String) (dh dm : List Char)
    (hs : s.data = dh ++ 'h' :: ' ' :: (dm ++ ['m']))
    (h1 : dh ≠ []) (h2 : ∀ c ∈ dh, c.isDigit = true)
    (h3 : dm ≠ []) (h4 : ∀ c ∈ dm, c.isDigit = true) :
    durationGrammarOK s = true := by
  simp only [durationGrammarOK, hs]
  rw [takeWhile_all_append _ dh 'h' _ h2 (by decide)]
  rw [List.drop_left]
  simp only [tailForm]
  rw [takeWhile_all_append _ dm 'm' [] h4 (by decide)]
  rw [show dm ++ ['m'] = dm ++ 'm' :: [] from rfl, List.drop_left]
  simp [isDigitRun_of dh h1 h2, isDigitRun_of dm h3 h4]

theorem durationGrammarOK_of_m (s : String) (dm : List Char)
    (hs : s.data = dm ++ ['m'])
    (h3 : dm ≠ []) (h4 : ∀ c ∈ dm, c.isDigit = true) :
    durationGrammarOK s = true := by
  simp only [durationGrammarOK, hs]
  rw [show dm ++ ['m'] = dm ++ 'm' :: [] from rfl]
  rw [takeWhile_all_append _ dm 'm' [] h4 (by decide)]
  rw [List.drop_left]
  simp [isDigitRun_of dm h3 h4]

theorem grammar_secondsToHM (n : Int) : durationGrammarOK (secondsToHM n) = true := by
  unfold secondsToHM
  by_cases hh : (n.ediv 60).ediv 60 > 0
  · rw [if_pos hh]
    obtain ⟨hd1, hd2⟩ := intToString_digits ((n.ediv 60).ediv 60) (le_of_lt hh)
    obtain ⟨he1, he2⟩ := intToString_digits ((n.ediv 60).emod 60) (Int.emod_nonneg _ (by norm_num))
    exact durationGrammarOK_of_hm _ (toString ((n.ediv 60).ediv 60)).data
      (toString ((n.ediv 60).emod 60)).data
      (by simp [String.data_append]) hd2 hd1 he2 he1
  · rw [if_neg hh]
    obtain ⟨he1, he2⟩ := intToString_digits ((n.ediv 60).emod 60) (Int.emod_nonneg _ (by norm_num))
    exact durationGrammarOK_of_m _ (toString ((n.ediv 60).emod 60)).data
      (by simp [String.data_append]) he2 he1

theorem grammar_convert_duration (s : String) (secs : Int)
    (hp : parseISODuration s = some secs) :
    ∃ t, convert_duration s = some t ∧ durationGrammarOK t = true := by
  have hne : ¬s = "" := by
    intro h
    rw [h] at hp
    rw [show parseISODuration "" = none from rfl] at hp
    exact Option.noConfusion hp
  unfold convert_duration
  rw [if_neg hne, hp]
  show ∃ t,
    (if (secs.ediv 60).ediv 60 > 0 then
      some (toString ((secs.ediv 60).ediv 60) ++ "h " ++ toString ((secs.ediv 60).emod 60) ++ "m")
     else some (toString ((secs.ediv 60).emod 60) ++ "m")) = some t ∧ durationGrammarOK t = true
  by_cases hh : (secs.ediv 60).ediv 60 > 0
  · rw [if_pos hh]
    obtain ⟨hd1, hd2⟩ := intToString_digits ((secs.ediv 60).ediv 60) (le_of_lt hh)
    obtain ⟨he1, he2⟩ := intToString_digits ((secs.ediv 60).emod 60) (Int.emod_nonneg _ (by norm_num))
    exact ⟨_, rfl, durationGrammarOK_of_hm _ (toString ((secs.ediv 60).ediv 60)).data
      (toString ((secs.ediv 60).emod 60)).data (by simp [String.data_append]) hd2 hd1 he2 he1⟩
  · rw [if_neg hh]
    obtain ⟨he1, he2⟩ := intToString_digits ((secs.ediv 60).emod 60) (Int.emod_nonneg _ (by norm_num))
    exact ⟨_, rfl, durationGrammarOK_of_m _ (toString ((secs.ediv 60).emod 60)).data
      (by simp [String.data_append]) he2 he1⟩

/-! Preservation lemmas: which fields each pipeline stage leaves alone. -/

theorem applyEmbedded_episode_count (r : Record) (e : Embedded) :
    (applyEmbedded r e).episode_count = r.episode_count := by
  simp only [applyEmbedded]
  repeat' split
  all_goals rfl

theorem applyEmbedded_stage_id (r : Record) (e : Embedded) :
    (applyEmbedded r e).stage_id = r.stage_id := by
  simp only [applyEmbedded]
  repeat' split
  all_goals rfl

theorem applyEmbedded_success (r : Record) (e : Embedded) :
    (applyEmbedded r e).success = r.success := by
  simp only [applyEmbedded]
  repeat' split
  all_goals rfl

theorem applyEmbedded_error (r : Record) (e : Embedded) :
    (applyEmbedded r e).error = r.error := by
  simp only [applyEmbedded]
  repeat' split
  all_goals rfl

theorem applyEmbedded_url (r : Record) (e : Embedded) :
    (applyEmbedded r e).url = r.url := by
  simp only [applyEmbedded]
  repeat' split
  all_goals rfl

theorem typeAndEpisode_success (r : Record) (nd ld : JVal) :
    (typeAndEpisode r nd ld).success = r.success := by
  simp only [typeAndEpisode]
  repeat' split
  all_goals rfl

theorem typeAndEpisode_error (r : Record) (nd ld : JVal) :
    (typeAndEpisode r nd ld).error = r.error := by
  simp only [typeAndEpisode]
  repeat' split
  all_goals rfl

theorem typeAndEpisode_url (r : Record) (nd ld : JVal) :
    (typeAndEpisode r nd ld).url = r.url := by
  simp only [typeAndEpisode]
  repeat' split
  all_goals rfl

theorem typeAndEpisode_stage_id (r : Record) (nd ld : JVal) :
    (typeAndEpisode r nd ld).stage_id = r.stage_id := by
  simp only [typeAndEpisode]
  repeat' split
  all_goals rfl

theorem typeAndEpisode_title (r : Record) (nd ld : JVal) :
    (typeAndEpisode r nd ld).title = r.title := by
  simp only [typeAndEpisode]
  repeat' split
  all_goals rfl

theorem layerB_success (r : Record) (sc : Scripts) : (layerB r sc).success = r.success := by
  simp only [layerB]
  repeat' split
  all_goals simp [typeAndEpisode_success, mergeNext, mergeLd]

theorem layerB_error (r : Record) (sc : Scripts) : (layerB r sc).error = r.error := by
  simp only [layerB]
  repeat' split
  all_goals simp [typeAndEpisode_error, mergeNext, mergeLd]

theorem layerB_url (r : Record) (sc : Scripts) : (layerB r sc).url = r.url := by
  simp only [layerB]
  repeat' split
  all_goals simp [typeAndEpisode_url, mergeNext, mergeLd]

theorem layerB_stage_id (r : Record) (sc : Scripts) : (layerB r sc).stage_id = r.stage_id := by
  simp only [layerB]
  repeat' split
  all_goals simp [typeAndEpisode_stage_id, mergeNext, mergeLd]

theorem cleanupDuration_eq_except_duration (r : Record) :
    (cleanupDuration r).stage_id = r.stage_id ∧ (cleanupDuration r).type = r.type ∧
    (cleanupDuration r).title = r.title ∧ (cleanupDuration r).episode_count = r.episode_count ∧
    (cleanupDuration r).success = r.success ∧ (cleanupDuration r).error = r.error ∧
    (cleanupDuration r).url = r.url ∧ (cleanupDuration r).release_date = r.release_date ∧
    (cleanupDuration r).languages = r.languages ∧
    (cleanupDuration r).landscape_poster = r.landscape_poster ∧
    (cleanupDuration r).portrait_poster = r.portrait_poster ∧
    (cleanupDuration r).description = r.description := by
  simp only [cleanupDuration]
  repeat' split
  all_goals simp

theorem setSuccess_eq_except_success (r : Record) :
    (setSuccess r).stage_id = r.stage_id ∧ (setSuccess r).type = r.type ∧
    (setSuccess r).title = r.title ∧ (setSuccess r).episode_count = r.episode_count ∧
    (setSuccess r).duration = r.duration ∧ (setSuccess r).error = r.error ∧
    (setSuccess r).url = r.url ∧ (setSuccess r).release_date = r.release_date ∧
    (setSuccess r).languages = r.languages ∧
    (setSuccess r).landscape_poster = r.landscape_poster ∧
    (setSuccess r).portrait_poster = r.portrait_poster ∧
    (setSuccess r).description = r.description := by
  simp only [setSuccess]
  repeat' split
  all_goals simp

theorem setSuccess_success (r : Record) (h : r.success = false) :
    (setSuccess r).success = (pyTruthy r.title || pyTruthy r.stage_id) := by
  unfold setSuccess
  split
  next hc => simp [hc]
  next hc =>
    rw [Bool.not_eq_true] at hc
    rw [h, hc]

/-! Discriminant lemmas for the embedded pass. -/

theorem embeddedTypeAndOverride_fst (l : List Char) :
    (embeddedTypeAndOverride l).1 = "series" ∨ (embeddedTypeAndOverride l).1 = "movie" := by
  unfold embeddedTypeAndOverride
  repeat' split
  all_goals simp

theorem extract_embedded_type (html : String) (soup : Soup) :
    (extract_embedded_data html soup).type = some "movie" ∨
    (extract_embedded_data html soup).type = some "series" := by
  have h := embeddedTypeAndOverride_fst (lowerL html.data)
  simp only [extract_embedded_data]
  rcases h with h | h <;> simp [h]

theorem find_movie_data_self (e : Embedded)
    (h : e.type = some "movie" ∨ e.type = some "series") : find_movie_data e = e := by
  unfold find_movie_data
  rcases h with h | h <;> simp [h]

theorem embedded_nonempty_of_type (e : Embedded)
    (h : e.type = some "movie" ∨ e.type = some "series") : e.nonempty = true := by
  rcases h with h | h <;> simp [Embedded.nonempty, h]

theorem applyEmbedded_fields (r : Record) (e : Embedded)
    (h : e.type = some "movie" ∨ e.type = some "series") :
    (applyEmbedded r e).title = e.title ∧
    (applyEmbedded r e).type = some (pyTitle (e.type.getD "")) ∧
    (applyEmbedded r e).description = some ((e.description.getD "").replace "\\n" "\n") ∧
    (applyEmbedded r e).release_date = some (match e.yearOfRelease with
      | some y => toString y
      | none => "") ∧
    (applyEmbedded r e).languages = some (pyTitle (e.dialect.getD "")) ∧
    (applyEmbedded r e).landscape_poster = e.horizontalThumbnail ∧
    (applyEmbedded r e).portrait_poster = e.verticalThumbnail := by
  have hne := embedded_nonempty_of_type e h
  have hmd := find_movie_data_self e h
  have hts : e.type.isSome = true := by
    rcases h with h | h <;> simp [h]
  simp only [applyEmbedded, hne, hmd, hts, if_true]
  repeat' split
  all_goals simp

theorem typeAndEpisode_episode (r : Record) (nd ld : JVal) (h0 : r.episode_count = none)
    (h : (typeAndEpisode r nd ld).episode_count.isSome = true) :
    (typeAndEpisode r nd ld).type = some "Series" := by
  simp only [typeAndEpisode] at h ⊢
  by_cases hp : pyTruthy r.type = true
  · rw [if_pos hp] at h ⊢
    by_cases hs : (r.type == some "Series") = true
    · rw [if_pos hs]
      simp at hs
      simp [hs]
    · rw [if_neg hs] at h
      rw [h0] at h
      simp at h
  · rw [if_neg hp] at h ⊢
    by_cases hs : (({ r with type := some (detect_content_type nd ld) } : Record).type ==
        some "Series") = true
    · rw [if_pos hs]
      simp at hs
      simp [hs]
    · rw [if_neg hs] at h
      rw [show ({ r with type := some (detect_content_type nd ld) } : Record).episode_count =
        r.episode_count from rfl, h0] at h
      simp at h

theorem layerB_episode (r : Record) (sc : Scripts) (h0 : r.episode_count = none)
    (h : (layerB r sc).episode_count.isSome = true) : (layerB r sc).type = some "Series" := by
  simp only [layerB] at h ⊢
  refine typeAndEpisode_episode _ _ _ ?_ h
  show (mergeLd _ _).episode_count = none
  simp only [mergeLd, mergeNext]
  rcases sc.nextData with _ | oj
  · exact h0
  · rcases oj with _ | j
    · exact h0
    · exact h0

/-- Unfolding equation for the engine on a successful fetch. -/
theorem gsi_ok_eq (url html : String) (soup : Soup) (sc : Scripts) :
    get_stage_identity url (.ok (html, soup, sc)) =
      setSuccess (cleanupDuration
        (if pyTruthy (applyEmbedded (initRecord url (extract_stage_id url))
              (extract_embedded_data html soup)).title = true
         then applyEmbedded (initRecord url (extract_stage_id url))
              (extract_embedded_data html soup)
         else layerB (applyEmbedded (initRecord url (extract_stage_id url))
              (extract_embedded_data html soup)) sc)) := rfl

theorem final_success_iff (r2 : Record) (h : r2.success = false) :
    ((setSuccess (cleanupDuration r2)).success = true ↔
      (∃ t, (setSuccess (cleanupDuration r2)).title = some t ∧ t ≠ "") ∨
      (∃ i, (setSuccess (cleanupDuration r2)).stage_id = some i ∧ i ≠ "")) := by
  have hcs : (cleanupDuration r2).success = false := by
    rw [(cleanupDuration_eq_except_duration r2).2.2.2.2.1]
    exact h
  rw [setSuccess_success _ hcs]
  rw [(setSuccess_eq_except_success _).2.2.1]
  rw [(setSuccess_eq_except_success _).1]
  rw [(cleanupDuration_eq_except_duration _).2.2.1]
  rw [(cleanupDuration_eq_except_duration _).1]
  rw [Bool.or_eq_true, pyTruthy_iff, pyTruthy_iff]

/-! ### Claim theorems -/

/-- Claim C3, amended: the episode_count of any record returned by
get_stage_identity is set only when the type of that record is Series;
the converse direction of the claimed equivalence fails (see the
counterexample). -/
theorem c3_amended_episode_implies_series :
    ∀ (url : String) (fetched : Except String (String × Soup × Scripts)),
      (get_stage_identity url fetched).episode_count.isSome = true →
      (get_stage_identity url fetched).type = some "Series" := by
  intro url fetched h
  cases fetched with
  | error e =>
    rw [show get_stage_identity url (.error e) = failureRecord url e from rfl] at h
    simp [failureRecord, initRecord] at h
  | ok x =>
    obtain ⟨html, soup, sc⟩ := x
    rw [gsi_ok_eq] at h ⊢
    rw [(setSuccess_eq_except_success _).2.2.2.1] at h
    rw [(setSuccess_eq_except_success _).2.1]
    rw [(cleanupDuration_eq_except_duration _).2.2.2.1] at h
    rw [(cleanupDuration_eq_except_duration _).2.1]
    have hr1e : (applyEmbedded (initRecord url (extract_stage_id url))
        (extract_embedded_data html soup)).episode_count = none := by
      rw [applyEmbedded_episode_count]
      rfl
    by_cases ht : pyTruthy (applyEmbedded (initRecord url (extract_stage_id url))
        (extract_embedded_data html soup)).title = true
    · rw [if_pos ht] at h ⊢
      rw [hr1e] at h
      simp at h
    · rw [if_neg ht] at h ⊢
      exact layerB_episode _ sc hr1e h

/-- Claim C3, witness: a page with a known series name and a next-data
block announcing five episodes produces a record with episode_count set,
and the amended theorem yields type Series for it. -/
theorem c3_witness :
    (get_stage_identity "u" (.ok (pageRamayanNext, {}, scriptsRamayan))).type = some "Series" :=
  c3_amended_episode_implies_series "u" (.ok (pageRamayanNext, {}, scriptsRamayan)) (by decide)

/-- Claim C3, counterexample to the stated equivalence: a page whose
record has type Series while episode_count stays unset. -/
theorem c3_counterexample :
    (get_stage_identity "u" (.ok (pageRamayan, soupRamayan, {}))).type = some "Series" ∧
    (get_stage_identity "u" (.ok (pageRamayan, soupRamayan, {}))).episode_count = none := by
  decide

/-- Claim C7: get_stage_identity never propagates an exception: a failed
fetch (timeout, bad status, or any fault surfacing at the top level,
modelled by the error side of the Except) yields the failure record with
success false, error set to the message, every content field absent and
url echoed; on the success side the error field is never set. -/
theorem c7_failure_record :
    (∀ (url msg : String), get_stage_identity url (.error msg) =
      { stage_id := none, type := none, title := none, description := none,
        release_date := none, duration := none, genre := none, languages := none,
        episode_count := none, landscape_poster := none, portrait_poster := none,
        url := url, success := false, error := some msg }) ∧
    (∀ (url html : String) (soup : Soup) (sc : Scripts),
      (get_stage_identity url (.ok (html, soup, sc))).error = none) := by
  constructor
  · intro url msg
    rfl
  · intro url html soup sc
    rw [gsi_ok_eq]
    rw [(setSuccess_eq_except_success _).2.2.2.2.2.1]
    rw [(cleanupDuration_eq_except_duration _).2.2.2.2.2.1]
    split
    · rw [applyEmbedded_error]
      rfl
    · rw [layerB_error, applyEmbedded_error]
      rfl

/-- Claim C8: the success flag of every returned record is true exactly
when the record carries a non-empty title or a non-empty identifier. -/
theorem c8_success_iff :
    ∀ (url : String) (fetched : Except String (String × Soup × Scripts)),
      ((get_stage_identity url fetched).success = true ↔
        (∃ t, (get_stage_identity url fetched).title = some t ∧ t ≠ "") ∨
        (∃ i, (get_stage_identity url fetched).stage_id = some i ∧ i ≠ "")) := by
  intro url fetched
  cases fetched with
  | error e =>
    rw [show get_stage_identity url (.error e) = failureRecord url e from rfl]
    simp [failureRecord, initRecord]
  | ok x =>
    obtain ⟨html, soup, sc⟩ := x
    rw [gsi_ok_eq]
    apply final_success_iff
    split
    · rw [applyEmbedded_success]
      rfl
    · rw [layerB_success, applyEmbedded_success]
      rfl

/-- Claim C10: for every input, the dict built by extract_embedded_data
carries a type discriminant that is movie or series, find_movie_data
therefore returns that dict itself, and when the heuristic pass produced
an acceptable title the script layers contribute nothing: the engine
output does not depend on the script blocks at all. -/
theorem c10_layerA_discriminant :
    ∀ (html : String) (soup : Soup),
      ((extract_embedded_data html soup).type = some "movie" ∨
       (extract_embedded_data html soup).type = some "series") ∧
      find_movie_data (extract_embedded_data html soup) = extract_embedded_data html soup ∧
      (pyTruthy (extract_embedded_data html soup).title = true →
        ∀ (url : String) (sc1 sc2 : Scripts),
          get_stage_identity url (.ok (html, soup, sc1)) =
          get_stage_identity url (.ok (html, soup, sc2))) := by
  intro html soup
  have hty := extract_embedded_type html soup
  refine ⟨hty, find_movie_data_self _ hty, ?_⟩
  intro hti url sc1 sc2
  have h1 : pyTruthy (applyEmbedded (initRecord url (extract_stage_id url))
      (extract_embedded_data html soup)).title = true := by
    rw [(applyEmbedded_fields _ _ hty).1]
    exact hti
  rw [gsi_ok_eq, gsi_ok_eq, if_pos h1, if_pos h1]

/-- Claim C10, witness: on a page whose embedded pass finds a title, the
output is identical whether or not script blocks are present. -/
theorem c10_witness :
    get_stage_identity "w" (.ok (pageVideshi, soupVideshi, scriptsAlt)) =
    get_stage_identity "w" (.ok (pageVideshi, soupVideshi, ({} : Scripts))) :=
  (c10_layerA_discriminant pageVideshi soupVideshi).2.2 (by decide) "w" scriptsAlt {}

set_option maxRecDepth 40000 in
/-- Claim C1, counterexample: on a page whose embedded pass recorded the
release year 2005 but no acceptable title, while the next-data block
carries a content object with year 2021, the final record holds the
next-data value, so a field set by Layer A was overwritten by Layer B. -/
theorem c1_counterexample :
    (extract_embedded_data pageYear {}).yearOfRelease = some 2005 ∧
    (recordAfterLayerA "u" pageYear {}).release_date = some "2005" ∧
    (extract_from_next_data nextYear).release_date = some "2021" ∧
    (get_stage_identity "u" (.ok (pageYear, {}, scriptsYear))).release_date = some "2021" := by
  decide

/-- Claim C1, amended: the no-overwrite guarantee holds whenever the
embedded pass also produced an acceptable title, because the script
layers are then skipped entirely: every field except the re-normalised
duration and the success flag equals its value after Layer A.  When
Layer A found no title, Layer B may overwrite (see the counterexample). -/
theorem c1_amended_no_overwrite :
    ∀ (url html : String) (soup : Soup) (sc : Scripts),
      pyTruthy (extract_embedded_data html soup).title = true →
      ((get_stage_identity url (.ok (html, soup, sc))).title =
          (recordAfterLayerA url html soup).title ∧
       (get_stage_identity url (.ok (html, soup, sc))).type =
          (recordAfterLayerA url html soup).type ∧
       (get_stage_identity url (.ok (html, soup, sc))).description =
          (recordAfterLayerA url html soup).description ∧
       (get_stage_identity url (.ok (html, soup, sc))).release_date =
          (recordAfterLayerA url html soup).release_date ∧
       (get_stage_identity url (.ok (html, soup, sc))).languages =
          (recordAfterLayerA url html soup).languages ∧
       (get_stage_identity url (.ok (html, soup, sc))).landscape_poster =
          (recordAfterLayerA url html soup).landscape_poster ∧
       (get_stage_identity url (.ok (html, soup, sc))).portrait_poster =
          (recordAfterLayerA url html soup).portrait_poster ∧
       (get_stage_identity url (.ok (html, soup, sc))).episode_count =
          (recordAfterLayerA url html soup).episode_count) := by
  intro url html soup sc hti
  have hty := extract_embedded_type html soup
  have h1 : pyTruthy (applyEmbedded (initRecord url (extract_stage_id url))
      (extract_embedded_data html soup)).title = true := by
    rw [(applyEmbedded_fields _ _ hty).1]
    exact hti
  rw [gsi_ok_eq, if_pos h1]
  rw [show applyEmbedded (initRecord url (extract_stage_id url))
      (extract_embedded_data html soup) = recordAfterLayerA url html soup from rfl]
  refine ⟨?_, ?_, ?_, ?_, ?_, ?_, ?_, ?_⟩
  · rw [(setSuccess_eq_except_success _).2.2.1, (cleanupDuration_eq_except_duration _).2.2.1]
  · rw [(setSuccess_eq_except_success _).2.1, (cleanupDuration_eq_except_duration _).2.1]
  · rw [(setSuccess_eq_except_success _).2.2.2.2.2.2.2.2.2.2.2,
      (cleanupDuration_eq_except_duration _).2.2.2.2.2.2.2.2.2.2.2]
  · rw [(setSuccess_eq_except_success _).2.2.2.2.2.2.2.1,
      (cleanupDuration_eq_except_duration _).2.2.2.2.2.2.2.1]
  · rw [(setSuccess_eq_except_success _).2.2.2.2.2.2.2.2.1,
      (cleanupDuration_eq_except_duration _).2.2.2.2.2.2.2.2.1]
  · rw [(setSuccess_eq_except_success _).2.2.2.2.2.2.2.2.2.1,
      (cleanupDuration_eq_except_duration _).2.2.2.2.2.2.2.2.2.1]
  · rw [(setSuccess_eq_except_success _).2.2.2.2.2.2.2.2.2.2.1,
      (cleanupDuration_eq_except_duration _).2.2.2.2.2.2.2.2.2.2.1]
  · rw [(setSuccess_eq_except_success _).2.2.2.1, (cleanupDuration_eq_except_duration _).2.2.2.1]

/-- Claim C1, witness: a page whose embedded pass has a title, evaluated
through the amended theorem at its release_date field. -/
theorem c1_witness :
    (get_stage_identity "w" (.ok (pageFoo, soupFoo, scriptsAlt))).title =
        (recordAfterLayerA "w" pageFoo soupFoo).title ∧
    (get_stage_identity "w" (.ok (pageFoo, soupFoo, scriptsAlt))).type =
        (recordAfterLayerA "w" pageFoo soupFoo).type ∧
    (get_stage_identity "w" (.ok (pageFoo, soupFoo, scriptsAlt))).description =
        (recordAfterLayerA "w" pageFoo soupFoo).description ∧
    (get_stage_identity "w" (.ok (pageFoo, soupFoo, scriptsAlt))).release_date =
        (recordAfterLayerA "w" pageFoo soupFoo).release_date ∧
    (get_stage_identity "w" (.ok (pageFoo, soupFoo, scriptsAlt))).languages =
        (recordAfterLayerA "w" pageFoo soupFoo).languages ∧
    (get_stage_identity "w" (.ok (pageFoo, soupFoo, scriptsAlt))).landscape_poster =
        (recordAfterLayerA "w" pageFoo soupFoo).landscape_poster ∧
    (get_stage_identity "w" (.ok (pageFoo, soupFoo, scriptsAlt))).portrait_poster =
        (recordAfterLayerA "w" pageFoo soupFoo).portrait_poster ∧
    (get_stage_identity "w" (.ok (pageFoo, soupFoo, scriptsAlt))).episode_count =
        (recordAfterLayerA "w" pageFoo soupFoo).episode_count :=
  c1_amended_no_overwrite "w" pageFoo soupFoo scriptsAlt (by decide)

/-- Claim C2: the manual-override table does fire on a Videshi Bahu page
(the embedded dict records type series and episode_count 12), but
get_stage_identity copies only the type out of it, so the returned record
has type Series and episode_count unset, against the documented 12. -/
theorem c2_override_dropped :
    (extract_embedded_data pageVideshi soupVideshi).type = some "series" ∧
    (extract_embedded_data pageVideshi soupVideshi).episode_count = some 12 ∧
    (get_stage_identity "u" (.ok (pageVideshi, soupVideshi, {}))).type = some "Series" ∧
    (get_stage_identity "u" (.ok (pageVideshi, soupVideshi, {}))).episode_count = none := by
  decide

/-- Claim C4, counterexample: a url whose path ends in a digit run not
preceded by a hyphen yields no identifier, though the claim promises the
digit run. -/
theorem c4_counterexample :
    extract_stage_id "https://www.stage.in/en/haryanvi/movie/kayantar14145" = none ∧
    ("https://www.stage.in/en/haryanvi/movie/kayantar14145".data.reverse.takeWhile
      Char.isDigit).reverse = "14145".data := by
  decide

theorem dollarStrip_cons_ne (c : Char) (r : List Char) (h : ¬c = '\n') :
    dollarStrip (c :: r) = c :: r := by
  simp [dollarStrip, h]

theorem dollarStrip_newline (r : List Char) : dollarStrip ('\n' :: r) = r := by
  simp [dollarStrip]

theorem dollarStrip_digits (dsl rest : List Char) (hne : dsl ≠ [])
    (hdig : ∀ c ∈ dsl, c.isDigit = true) :
    dollarStrip (dsl.reverse ++ rest) = dsl.reverse ++ rest := by
  rcases h : dsl.reverse with _ | ⟨a, as⟩
  · exact absurd (by simpa using congrArg List.reverse h) hne
  · have ha : a.isDigit = true := by
      apply hdig
      rw [← List.mem_reverse, h]
      exact List.mem_cons_self a as
    have hne2 : ¬a = '\n' := by
      intro hEq
      rw [hEq] at ha
      exact absurd ha (by decide)
    rw [List.cons_append]
    exact dollarStrip_cons_ne a (as ++ rest) hne2

theorem trailingId_hyphen (dsl rest : List Char) (hne : dsl ≠ [])
    (hdig : ∀ c ∈ dsl, c.isDigit = true) :
    trailingId (dsl.reverse ++ '-' :: rest) = some ⟨dsl⟩ := by
  simp only [trailingId]
  rw [takeWhile_all_append Char.isDigit dsl.reverse '-' rest
    (fun c hc => hdig c (List.mem_reverse.mp hc)) (by decide)]
  rw [List.drop_left]
  rw [if_neg (by simpa using hne)]
  show some (String.mk dsl.reverse.reverse) = some (String.mk dsl)
  rw [List.reverse_reverse]

theorem trailingId_other (dsl rest : List Char) (c : Char) (hcd : c.isDigit = false)
    (hch : ¬c = '-') (hne : dsl ≠ []) (hdig : ∀ x ∈ dsl, x.isDigit = true) :
    trailingId (dsl.reverse ++ c :: rest) = none := by
  simp only [trailingId]
  rw [takeWhile_all_append Char.isDigit dsl.reverse c rest
    (fun x hx => hdig x (List.mem_reverse.mp hx)) hcd]
  rw [List.drop_left]
  rw [if_neg (by simpa using hne)]
  show (if (c == '-') = true then some (String.mk dsl.reverse.reverse) else none) = none
  rw [if_neg (by simpa using hch)]

theorem trailingId_nodigit (c : Char) (rest : List Char) (hcd : c.isDigit = false) :
    trailingId (c :: rest) = none := by
  simp only [trailingId]
  rw [show (c :: rest).takeWhile Char.isDigit = [] from by simp [List.takeWhile_cons, hcd]]
  rfl

/-- Claim C4, amended: extract_stage_id returns the trailing digit run
exactly when a hyphen immediately precedes it, where trailing means at
the very end or just before one final newline (the dollar anchor): with
the hyphen the run is returned, with or without that newline; a url
ending in digits preceded by any other character yields none, and a url
whose last character is neither a digit nor a final newline yields
none. -/
theorem c4_amended_hyphen_required :
    (∀ (p ds : String), ds.data ≠ [] → (∀ c ∈ ds.data, c.isDigit = true) →
      extract_stage_id (p ++ "-" ++ ds) = some ds) ∧
    (∀ (p ds : String), ds.data ≠ [] → (∀ c ∈ ds.data, c.isDigit = true) →
      extract_stage_id (p ++ "-" ++ ds ++ "\n") = some ds) ∧
    (∀ (p ds : String) (c : Char), c.isDigit = false → c ≠ '-' →
      ds.data ≠ [] → (∀ x ∈ ds.data, x.isDigit = true) →
      extract_stage_id (p ++ c.toString ++ ds) = none) ∧
    (∀ (p : String) (c : Char), c.isDigit = false → c ≠ '\n' →
      extract_stage_id (p ++ c.toString) = none) := by
  refine ⟨?_, ?_, ?_, ?_⟩
  · intro p ds hne hdig
    obtain ⟨dsl⟩ := ds
    show trailingId (dollarStrip (p ++ "-" ++ String.mk dsl).data.reverse) = some (String.mk dsl)
    have hdata : (p ++ "-" ++ String.mk dsl).data = (p.data ++ ['-']) ++ dsl := by
      simp [String.data_append]
    rw [hdata]
    have hrev : ((p.data ++ ['-']) ++ dsl).reverse = dsl.reverse ++ '-' :: p.data.reverse := by
      simp
    rw [hrev]
    rw [dollarStrip_digits dsl ('-' :: p.data.reverse) hne hdig]
    exact trailingId_hyphen dsl p.data.reverse hne hdig
  · intro p ds hne hdig
    obtain ⟨dsl⟩ := ds
    show trailingId (dollarStrip (p ++ "-" ++ String.mk dsl ++ "\n").data.reverse) =
      some (String.mk dsl)
    have hdata : (p ++ "-" ++ String.mk dsl ++ "\n").data =
        ((p.data ++ ['-']) ++ dsl) ++ ['\n'] := by
      simp [String.data_append]
    rw [hdata]
    have hrev : (((p.data ++ ['-']) ++ dsl) ++ ['\n']).reverse =
        '\n' :: (dsl.reverse ++ '-' :: p.data.reverse) := by
      simp
    rw [hrev, dollarStrip_newline]
    exact trailingId_hyphen dsl p.data.reverse hne hdig
  · intro p ds c hcd hch hne hdig
    obtain ⟨dsl⟩ := ds
    show trailingId (dollarStrip (p ++ c.toString ++ String.mk dsl).data.reverse) = none
    have hdata : (p ++ c.toString ++ String.mk dsl).data = (p.data ++ [c]) ++ dsl := by
      simp [String.data_append]
      rfl
    rw [hdata]
    have hrev : ((p.data ++ [c]) ++ dsl).reverse = dsl.reverse ++ c :: p.data.reverse := by
      simp
    rw [hrev]
    rw [dollarStrip_digits dsl (c :: p.data.reverse) hne hdig]
    exact trailingId_other dsl p.data.reverse c hcd hch hne hdig
  · intro p c hcd hcn
    show trailingId (dollarStrip (p ++ c.toString).data.reverse) = none
    have hdata : (p ++ c.toString).data = p.data ++ [c] := by
      simp [String.data_append]
      rfl
    rw [hdata]
    have hrev : (p.data ++ [c]).reverse = c :: p.data.reverse := by
      simp
    rw [hrev]
    rw [dollarStrip_cons_ne c p.data.reverse hcn]
    exact trailingId_nodigit c p.data.reverse hcd

/-- Claim C4, witness: the amended theorem evaluated at concrete urls,
the newline case included. -/
theorem c4_witness :
    extract_stage_id ("x" ++ "-" ++ "12") = some "12" ∧
    extract_stage_id ("x" ++ "-" ++ "12" ++ "\n") = some "12" ∧
    extract_stage_id ("x" ++ Char.toString 'a' ++ "12") = none ∧
    extract_stage_id ("xa" ++ Char.toString 'z') = none := by
  refine ⟨?_, ?_, ?_, ?_⟩
  · exact c4_amended_hyphen_required.1 "x" "12" (by decide) (by decide)
  · exact c4_amended_hyphen_required.2.1 "x" "12" (by decide) (by decide)
  · exact c4_amended_hyphen_required.2.2.1 "x" "12" 'a' (by decide) (by decide) (by decide)
      (by decide)
  · exact c4_amended_hyphen_required.2.2.2 "xa" 'z' (by decide) (by decide)

set_option maxRecDepth 100000 in
/-- Claim C5, counterexample: the heuristic duration extractor turns the
text 95 minutes into the bare digit string 95, which survives the final
clean-up and violates the claimed grammar. -/
theorem c5_counterexample :
    (get_stage_identity "u" (.ok (pageMinutes, soupMinutes, {}))).duration = some "95" ∧
    durationGrammarOK "95" = false := by
  decide

/-- Claim C5, amended: the claimed grammar does hold for every duration
produced by the seconds conversion and by a successful ISO normalisation;
durations lifted verbatim from page text by the heuristic extractor may
take other shapes (bare digits, a bare hour term, or hour-minute-second
forms), as the counterexample shows. -/
theorem c5_amended_grammar :
    (∀ n : Int, durationGrammarOK (secondsToHM n) = true) ∧
    (∀ (s : String) (secs : Int), parseISODuration s = some secs →
      ∃ t, convert_duration s = some t ∧ durationGrammarOK t = true) :=
  ⟨grammar_secondsToHM, grammar_convert_duration⟩

/-- Claim C5, witness: the amended theorem evaluated on a seconds count
and on a parsed ISO duration. -/
theorem c5_witness :
    durationGrammarOK (secondsToHM 5220) = true ∧
    (∃ t, convert_duration "PT30M" = some t ∧ durationGrammarOK t = true) :=
  ⟨c5_amended_grammar.1 5220, c5_amended_grammar.2 "PT30M" 1800 (by decide)⟩

theorem headDispatch_cons (c : Char) (r : List Char)
    (h1 : (c == 'P') = false) (h2 : (c == '+') = false) (h3 : (c == '-') = false) :
    headDispatch (c :: r) = none := by
  simp only [headDispatch]
  rw [h1, h2, h3]
  rfl

theorem parseISODuration_none_of_head (s : String)
    (hP : s.data.head? ≠ some 'P') (hpl : s.data.head? ≠ some '+')
    (hmn : s.data.head? ≠ some '-') : parseISODuration s = none := by
  rcases hl : s.data with _ | ⟨c, r⟩
  · unfold parseISODuration
    rw [hl]
    rfl
  · rw [hl] at hP hpl hmn
    simp only [List.head?_cons] at hP hpl hmn
    have h1 : (c == 'P') = false := beq_eq_false_iff_ne.mpr fun h => hP (congrArg some h)
    have h2 : (c == '+') = false := beq_eq_false_iff_ne.mpr fun h => hpl (congrArg some h)
    have h3 : (c == '-') = false := beq_eq_false_iff_ne.mpr fun h => hmn (congrArg some h)
    unfold parseISODuration
    rw [hl]
    by_cases hlast : (((c :: r) : List Char).getLast? == some '\n') = true
    · rw [if_pos hlast]
      rcases r with _ | ⟨d, r2⟩
      · rfl
      · rw [show ((c :: d :: r2 : List Char).dropLast) = c :: (d :: r2).dropLast from rfl]
        exact headDispatch_cons c _ h1 h2 h3
    · rw [if_neg hlast]
      exact headDispatch_cons c r h1 h2 h3

/-- Claim C6, counterexample: P1Y is a well-formed ISO-8601 duration of
8760 hours, but the library object reports total_seconds from its
internal timedelta, which has no year part, so convert_duration
reformats it to 0m rather than to 8760h 0m, and does not return it
unchanged either. -/
theorem c6_counterexample :
    convert_duration "P1Y" = some "0m" ∧
    ("0m" : String) ≠ "8760h 0m" ∧ ("0m" : String) ≠ "P1Y" := by
  decide

/-- Claim C6, amended: whenever the duration parser succeeds with a
floored seconds total, convert_duration formats hours and minutes of
that total, years and months contributing zero seconds; PT1H27M becomes
1h 27m; and a non-empty input starting with none of P, + and - is
returned unchanged, since both library parse paths then fail and the
handler returns the argument. -/
theorem c6_convert_duration_spec :
    (∀ (s : String) (secs : Int), parseISODuration s = some secs →
      convert_duration s = some (
        if (secs.ediv 60).ediv 60 > 0 then
          toString ((secs.ediv 60).ediv 60) ++ "h " ++ toString ((secs.ediv 60).emod 60) ++ "m"
        else toString ((secs.ediv 60).emod 60) ++ "m")) ∧
    convert_duration "PT1H27M" = some "1h 27m" ∧
    (∀ s : String, s ≠ "" → s.data.head? ≠ some 'P' → s.data.head? ≠ some '+' →
      s.data.head? ≠ some '-' → convert_duration s = some s) := by
  refine ⟨?_, by decide, ?_⟩
  · intro s secs hp
    have hne : ¬s = "" := by
      intro h
      rw [h] at hp
      rw [show parseISODuration "" = none from rfl] at hp
      exact Option.noConfusion hp
    unfold convert_duration
    rw [if_neg hne, hp]
    show (if (secs.ediv 60).ediv 60 > 0 then
        some (toString ((secs.ediv 60).ediv 60) ++ "h " ++ toString ((secs.ediv 60).emod 60) ++ "m")
      else some (toString ((secs.ediv 60).emod 60) ++ "m")) = _
    split
    · rfl
    · rfl
  · intro s hne hP hpl hmn
    unfold convert_duration
    rw [if_neg hne, parseISODuration_none_of_head s hP hpl hmn]

/-- Claim C6, witness: the amended theorem at a parsed duration and at
an unparseable one. -/
theorem c6_witness :
    convert_duration "PT2H5M" = some (
      if (((7500 : Int).ediv 60).ediv 60 > 0) then
        toString (((7500 : Int).ediv 60).ediv 60) ++ "h " ++
          toString (((7500 : Int).ediv 60).emod 60) ++ "m"
      else toString (((7500 : Int).ediv 60).emod 60) ++ "m") ∧
    convert_duration "zzz" = some "zzz" :=
  ⟨c6_convert_duration_spec.1 "PT2H5M" 7500 (by decide),
   c6_convert_duration_spec.2.2 "zzz" (by decide) (by decide) (by decide) (by decide)⟩

set_option maxRecDepth 100000 in
/-- Claim C9: the scenario page with title element STAGE, open-graph
title Kayantar, fetched from the movie path with trailing id 14145,
yields identifier 14145, type Movie and title Kayantar. -/
theorem c9_scenario :
    (get_stage_identity urlKayantar (.ok (pageKayantar, soupKayantar, {}))).stage_id =
        some "14145" ∧
    (get_stage_identity urlKayantar (.ok (pageKayantar, soupKayantar, {}))).type =
        some "Movie" ∧
    (get_stage_identity urlKayantar (.ok (pageKayantar, soupKayantar, {}))).title =
        some "Kayantar" := by
  decide
